import Mathlib

/-!
Verification of the rhi job-processing agent.

Shallow embedding of the core components, translated from the Rust sources:
  * `src/utils/unit.rs`          — mass units and conversion
  * `src/utils/nostr.rs`         — tag primitives and encrypted-envelope resolution
  * `src/events/job_request.rs`  — job-request parsing and dispatch
  * `crates/rhi/src/models/event_classified.rs` — listing reconstruction and
    order computation (the current iteration of that module)

Numeric modelling: Rust `f64` values are embedded as `ℚ`.  All values
occurring in the verified paths are finite decimal literals, which `f64`
parsing and arithmetic handle as the corresponding dyadic/decimal rationals;
the non-finite values `inf`/`nan` are outside this model and noted where
relevant.  `f64::EPSILON` is `2^-52`.  Rust's `f64::round` (half away from
zero) is modelled exactly.  Rust's `Display` rendering of an `f64` (shortest
round-tripping decimal) appears in format strings and in the derived
packaging key; it is threaded through the order computation as an explicit
formatter parameter `fmt : ℚ → String`, so the theorems hold for every
rendering function.
-/

set_option maxHeartbeats 1000000

deriving instance DecidableEq for Except

namespace Rhi

/-! ## String/number parsing primitives (Rust `str::parse`) -/

/-- Value of a list of decimal digit characters, most significant first. -/
def digitsVal (cs : List Char) : ℕ :=
  cs.foldl (fun acc c => acc * 10 + (c.toNat - 48)) 0

/-- Split a character list at the first character satisfying `p`:
returns the prefix before it and, when found, the remainder after it. -/
def splitOnce (p : Char → Bool) : List Char → List Char × Option (List Char)
  | [] => ([], none)
  | c :: cs =>
    if p c then ([], some cs)
    else
      let (pre, rest) := splitOnce p cs
      (c :: pre, rest)

/-- Parsing of the exponent part of a float literal (after `e`/`E`):
an optional sign followed by a nonempty digit string. -/
def parseExpPart (cs : List Char) : Option ℤ :=
  let (sign, ds) : ℤ × List Char :=
    match cs with
    | '-' :: r => (-1, r)
    | '+' :: r => (1, r)
    | r => (1, r)
  if ds ≠ [] ∧ ds.all Char.isDigit then some (sign * digitsVal ds) else none

/-- Parsing of the mantissa of a float literal: digits with an optional
decimal point, at least one digit overall. -/
def parseMantissa (cs : List Char) : Option ℚ :=
  let (ip, fo) := splitOnce (· == '.') cs
  match fo with
  | none =>
    if ip ≠ [] ∧ ip.all Char.isDigit then some (digitsVal ip) else none
  | some fp =>
    if (ip ≠ [] ∨ fp ≠ []) ∧ ip.all Char.isDigit ∧ fp.all Char.isDigit then
      some ((digitsVal ip : ℚ) + (digitsVal fp : ℚ) / (10 : ℚ) ^ fp.length)
    else none

/-- Embedding of Rust `str::parse::<f64>()` restricted to finite decimal
literals: optional sign, mantissa, optional `e`/`E` exponent.  The special
spellings `inf`/`infinity`/`nan` produce non-finite floats and are outside
the rational model (they are rejected here). -/
def parseF64 (s : String) : Option ℚ :=
  let (sign, rest) : ℚ × List Char :=
    match s.data with
    | '-' :: r => (-1, r)
    | '+' :: r => (1, r)
    | r => (1, r)
  let (mant, expo) := splitOnce (fun c => c == 'e' || c == 'E') rest
  match expo with
  | none => (parseMantissa mant).map (sign * ·)
  | some ep =>
    match parseMantissa mant, parseExpPart ep with
    | some m, some e => some (sign * m * (10 : ℚ) ^ e)
    | _, _ => none

/-- Embedding of Rust `str::parse::<u64>()`: an optional leading `+`
followed by a nonempty digit string, failing on overflow past `2^64 - 1`. -/
def parseU64 (s : String) : Option ℕ :=
  let ds : List Char :=
    match s.data with
    | '+' :: r => r
    | r => r
  if ds ≠ [] ∧ ds.all Char.isDigit ∧ digitsVal ds < 2 ^ 64 then
    some (digitsVal ds)
  else none

/-- Embedding of Rust `str::parse::<u32>()`: as `parseU64` but bounded by
`2^32 - 1`. -/
def parseU32 (s : String) : Option ℕ :=
  let ds : List Char :=
    match s.data with
    | '+' :: r => r
    | r => r
  if ds ≠ [] ∧ ds.all Char.isDigit ∧ digitsVal ds < 2 ^ 32 then
    some (digitsVal ds)
  else none

/-! ## Mass units — `src/utils/unit.rs` -/

/-- MassUnit: closed enumeration of the supported mass units. -/
inductive MassUnit where
  | G
  | Kg
  | Oz
  | Lb
  deriving DecidableEq, Repr

/-- Conversion factor of a unit to grams (`MassUnit::to_grams`). -/
def MassUnit.to_grams : MassUnit → ℚ
  | .G => 1
  | .Kg => 1000
  | .Oz => 28.3495
  | .Lb => 453.592

/-- Embedding of `MassUnit`'s `FromStr`: only the exact lowercase spellings
are accepted. -/
def MassUnit.fromStr : String → Option MassUnit
  | "g" => some .G
  | "kg" => some .Kg
  | "oz" => some .Oz
  | "lb" => some .Lb
  | _ => none

/-- Conversion between mass units routing through grams (`convert_mass`). -/
def convert_mass (amount : ℚ) (from_unit to_unit : MassUnit) : ℚ :=
  amount * from_unit.to_grams / to_unit.to_grams

/-! ## Float rounding and epsilon -/

/-- Rust `f64::EPSILON`, `2^-52`. -/
def f64EPSILON : ℚ := 1 / 2 ^ 52

/-- Rust `f64::abs`. -/
def ratAbs (x : ℚ) : ℚ := if x < 0 then -x else x

theorem ratAbs_eq_abs (x : ℚ) : ratAbs x = |x| := by
  unfold ratAbs
  rcases lt_or_le x 0 with h | h
  · rw [if_pos h, abs_of_neg h]
  · rw [if_neg (not_lt.mpr h), abs_of_nonneg h]

/-- Rust `f64::round`: round half away from zero. -/
def f64round (x : ℚ) : ℚ :=
  if x < 0 then (⌈x - 1 / 2⌉ : ℤ) else (⌊x + 1 / 2⌋ : ℤ)

/-- The `(x * 100.0).round() / 100.0` idiom used for every money amount:
round to 2 decimal places, half up on the scaled integer (half away from
zero in general; all amounts in the verified paths are nonnegative). -/
def roundTo2 (x : ℚ) : ℚ := f64round (x * 100) / 100

/-! ## Classified-listing data model — `crates/rhi/src/models/event_classified.rs` -/

structure EventClassifiedGeolocation where
  geohash : Option String
  lat : ℚ
  lng : ℚ
  deriving DecidableEq, Repr

structure EventClassifiedLocation where
  address : String
  region : String
  country : String
  deriving DecidableEq, Repr

inductive EventClassifiedDiscount where
  | Subtotal (threshold : ℚ) (currency : String) (value : ℚ) (is_percent : Bool)
  | Mass (discount_unit : String) (threshold : ℚ) (threshold_unit : String)
      (discount_per_unit : ℚ) (currency : String)
  | Quantity (product_key : String) (min_count : ℕ) (discount_per_unit : ℚ)
      (currency : String)
  deriving DecidableEq, Repr

structure EventClassifiedQuantity where
  amount : ℚ
  unit : MassUnit
  label : String
  deriving DecidableEq, Repr

structure EventClassifiedPrice where
  amount : ℚ
  currency : String
  quantity_amount : ℚ
  quantity_unit : MassUnit
  deriving DecidableEq, Repr

structure EventClassifiedListing where
  key : String
  category : String
  process : Option String
  lot : Option String
  profile : Option String
  year : Option String
  deriving DecidableEq, Repr

structure EventClassifiedBasis where
  title : String
  summary : String
  deriving DecidableEq, Repr

/-- EventClassified: the reconstructed listing.  The event id is modelled
as its hex string. -/
structure EventClassified where
  id : String
  basis : EventClassifiedBasis
  listing : EventClassifiedListing
  prices : List EventClassifiedPrice
  quantities : List EventClassifiedQuantity
  discounts : List EventClassifiedDiscount
  location : Option EventClassifiedLocation
  geolocation : Option EventClassifiedGeolocation
  deriving DecidableEq, Repr

/-! ## Order request and result — `job_request_order.rs`, `order_classified.rs` -/

structure JobRequestOrderDataQuantity where
  amount : ℚ
  unit : String
  count : ℕ
  mass_g : ℚ
  label : String
  deriving DecidableEq, Repr

structure JobRequestOrderDataPrice where
  amount : ℚ
  currency : String
  quantity_amount : ℚ
  quantity_unit : String
  deriving DecidableEq, Repr

structure JobRequestOrderDataOrder where
  price : JobRequestOrderDataPrice
  quantity : JobRequestOrderDataQuantity
  deriving DecidableEq, Repr

/-- JobRequestOrderError.  The `Unsatisfiable` variant is the one produced
by `calculate_order`; its declaration lives in the crate's
`handlers/job_request_order.rs` (the current iteration of that file is not
part of this snapshot) and is modelled from the spec contract
"fails with Unsatisfiable(reason) for every validation failure", carrying
the reason string built in `event_classified.rs`. -/
inductive JobRequestOrderError where
  | ReferenceEventParse (id : String)
  | ReferenceEventFetch (id : String)
  | ReferenceEventMissing (id : String)
  | ReferenceEventMissingRequested (what : String)
  | Unsatisfiable (reason : String)
  deriving DecidableEq, Repr

structure OrderClassifiedQuantity where
  amount : ℚ
  unit : String
  label : String
  deriving DecidableEq, Repr

structure OrderClassifiedPrice where
  amount : ℚ
  currency : String
  quantity_amount : ℚ
  quantity_unit : String
  deriving DecidableEq, Repr

structure OrderClassifiedDiscount where
  discount_type : String
  threshold : Option ℚ
  threshold_unit : Option String
  discount_per_unit : Option ℚ
  discount_unit : Option String
  discount_percent : Option ℚ
  discount_amount : ℚ
  currency : String
  deriving DecidableEq, Repr

structure OrderClassifiedTotal where
  price_amount : ℚ
  price_currency : String
  quantity_amount : ℚ
  quantity_unit : String
  deriving DecidableEq, Repr

structure OrderClassifiedResult where
  quantity : OrderClassifiedQuantity
  price : OrderClassifiedPrice
  discounts : List OrderClassifiedDiscount
  subtotal : OrderClassifiedTotal
  total : OrderClassifiedTotal
  deriving DecidableEq, Repr

/-! ## Order computation — `EventClassified::calculate_order`

The formatter parameter `fmt` stands for Rust's `f64` `Display`
rendering, used when interpolating numbers into error messages and into
the derived packaging key. -/

/-- Lowercasing as used by `to_lowercase()` on the (ASCII) strings of this
codebase. -/
def strLower (s : String) : String := s.toLower

/-- The packaging key derived from the requested quantity:
`"{amount}-{lowercased unit}-{label}"`. -/
def packageKeyOf (fmt : ℚ → String) (q : JobRequestOrderDataQuantity) : String :=
  fmt q.amount ++ "-" ++ strLower q.unit ++ "-" ++ q.label

/-- Predicate of the tier search (`self.prices.iter().find(...)`). -/
def tierMatches (price_unit : MassUnit) (price : JobRequestOrderDataPrice)
    (p : EventClassifiedPrice) : Bool :=
  decide (p.quantity_unit = price_unit) &&
    decide (ratAbs (p.quantity_amount - price.quantity_amount) < f64EPSILON) &&
    (strLower p.currency == strLower price.currency)

/-- One iteration of the discount loop in `calculate_order`.  The loop
context (subtotal, total quantity, requested unit, packaging key, count) is
passed explicitly; the accumulator is the list of applied discounts. -/
def calcDiscountStep (subtotal total_qty : ℚ) (qty_unit : MassUnit)
    (package_key : String) (count : ℕ)
    (acc : List OrderClassifiedDiscount) (d : EventClassifiedDiscount) :
    Except JobRequestOrderError (List OrderClassifiedDiscount) :=
  match d with
  | .Subtotal threshold currency value is_percent =>
    if subtotal < threshold then .ok acc
    else
      let amt := if is_percent then roundTo2 (subtotal * value / 100) else roundTo2 value
      let entry : OrderClassifiedDiscount :=
        { discount_type := "subtotal",
          threshold := some threshold,
          threshold_unit := none,
          discount_per_unit := none,
          discount_unit := none,
          discount_percent := if is_percent then some value else none,
          discount_amount := amt,
          currency := currency }
      .ok (acc ++ [entry])
  | .Mass discount_unit threshold threshold_unit discount_per_unit currency =>
    match MassUnit.fromStr threshold_unit with
    | none => .error (.Unsatisfiable "invalid threshold unit")
    | some th_unit =>
      match MassUnit.fromStr discount_unit with
      | none => .error (.Unsatisfiable "invalid discount unit")
      | some dis_unit =>
        let qty_in_th := convert_mass total_qty qty_unit th_unit
        if qty_in_th < threshold then .ok acc
        else
          let qty_in_dis := convert_mass total_qty qty_unit dis_unit
          let amt := roundTo2 (qty_in_dis * discount_per_unit)
          let entry : OrderClassifiedDiscount :=
            { discount_type := "mass",
              threshold := some threshold,
              threshold_unit := some threshold_unit,
              discount_per_unit := some discount_per_unit,
              discount_unit := some discount_unit,
              discount_percent := none,
              discount_amount := amt,
              currency := currency }
          .ok (acc ++ [entry])
  | .Quantity product_key min_count discount_per_unit currency =>
    if product_key ≠ package_key ∨ count < min_count then .ok acc
    else
      let amt := roundTo2 (discount_per_unit * count)
      let entry : OrderClassifiedDiscount :=
        { discount_type := "quantity",
          threshold := some (min_count : ℚ),
          threshold_unit := none,
          discount_per_unit := some discount_per_unit,
          discount_unit := none,
          discount_percent := none,
          discount_amount := amt,
          currency := currency }
      .ok (acc ++ [entry])

/-- Embedding of `EventClassified::calculate_order`. -/
def calculate_order (fmt : ℚ → String) (self : EventClassified)
    (order : JobRequestOrderDataOrder) :
    Except JobRequestOrderError OrderClassifiedResult :=
  let quantity := order.quantity
  let price := order.price
  match MassUnit.fromStr quantity.unit with
  | none => .error (.Unsatisfiable "invalid quantity unit")
  | some qty_unit =>
    match MassUnit.fromStr price.quantity_unit with
    | none => .error (.Unsatisfiable "invalid price quantity unit")
    | some price_unit =>
      let total_qty := quantity.amount * (quantity.count : ℚ)
      let matched_packaging := self.quantities.any fun q =>
        decide (q.unit = qty_unit) && decide (ratAbs (q.amount - quantity.amount) < f64EPSILON)
      if !matched_packaging then
        .error (.Unsatisfiable ("requested packaging " ++ fmt quantity.amount ++ " "
          ++ quantity.unit ++ " not available"))
      else
        match self.prices.find? (tierMatches price_unit price) with
        | none =>
          .error (.Unsatisfiable ("no matching price tier " ++ fmt price.quantity_amount
            ++ " " ++ price.quantity_unit ++ " found"))
        | some tier =>
          if f64EPSILON < ratAbs (tier.amount - price.amount) then
            .error (.Unsatisfiable ("price mismatch: expected " ++ fmt tier.amount
              ++ ", got " ++ fmt price.amount))
          else
            let converted_qty := convert_mass total_qty qty_unit price_unit
            let unit_price := tier.amount / tier.quantity_amount
            let subtotal := roundTo2 (unit_price * converted_qty)
            let package_key := packageKeyOf fmt quantity
            match self.discounts.foldlM
                (calcDiscountStep subtotal total_qty qty_unit package_key quantity.count)
                [] with
            | .error e => .error e
            | .ok discounts =>
              let total_discount := (discounts.map (·.discount_amount)).sum
              let total := roundTo2 (subtotal - total_discount)
              let res : OrderClassifiedResult :=
                { quantity :=
                    { amount := quantity.amount, unit := quantity.unit,
                      label := quantity.label },
                  price :=
                    { amount := tier.amount, currency := tier.currency,
                      quantity_amount := tier.quantity_amount,
                      quantity_unit := price.quantity_unit },
                  discounts := discounts,
                  subtotal :=
                    { price_amount := subtotal, price_currency := tier.currency,
                      quantity_amount := total_qty, quantity_unit := quantity.unit },
                  total :=
                    { price_amount := total, price_currency := tier.currency,
                      quantity_amount := total_qty, quantity_unit := quantity.unit } }
              .ok res

/-! ## Tags and tag primitives — `src/utils/nostr.rs`

A wire tag is an ordered sequence of strings `[kind, value_0, value_1, ...]`.
`TagKind` mirrors the distinctions the embedded functions actually make in
the `nostr` crate: a single ASCII letter is a single-letter kind, the names
`relays` / `encrypted` / `title` / `summary` are the standard kinds consumed
by this codebase, everything else is a custom kind.  (The crate knows more
standard names; none of them coincide with a key any embedded match arm
consumes, so folding them into `custom` is behaviour-preserving for the
functions modelled here.) -/

abbrev Tag := List String

inductive TagKind where
  | singleLetter (c : Char)
  | relays
  | encrypted
  | title
  | summary
  | custom (k : String)
  deriving DecidableEq, Repr

/-- Kind of a tag, derived from its first element. -/
def tagKind (t : Tag) : TagKind :=
  let s := t.headD ""
  if s.length = 1 ∧ (s.get 0).isAlpha then .singleLetter (s.get 0)
  else if s = "relays" then .relays
  else if s = "encrypted" then .encrypted
  else if s = "title" then .title
  else if s = "summary" then .summary
  else .custom s

/-- Content of a tag: its second positional element (`Tag::content`). -/
def tagContent (t : Tag) : Option String := t.get? 1

/-- Embedding of `nostr_tag_first_value`: the tag's content when its kind is
the custom kind `key`. -/
def nostr_tag_first_value (t : Tag) (key : String) : Option String :=
  if tagKind t = .custom key then tagContent t else none

/-- Embedding of `nostr_tag_at_value`. -/
def nostr_tag_at_value (t : Tag) (index : ℕ) : Option String := t.get? index

/-- Embedding of `nostr_tag_slice`: the suffix from `start`, `none` when
`start` exceeds the length. -/
def nostr_tag_slice (t : Tag) (start : ℕ) : Option (List String) :=
  if start ≤ t.length then some (t.drop start) else none

/-- Embedding of `nostr_tag_relays_parse`.  Relay URLs are modelled as their
strings (URL validity is not modelled; no verified property depends on it). -/
def nostr_tag_relays_parse (t : Tag) : Option (List String) :=
  if tagKind t = .relays then some (t.drop 1) else none

/-- Embedding of `nostr_tags_match`: a custom-kinded tag yields its key and
the values after it. -/
def nostr_tags_match (t : Tag) : Option (String × List String) :=
  match tagKind t with
  | .custom k => some (k, t.drop 1)
  | _ => none

/-- Embedding of `nostr_tag_match_l`: a tag `[l, value, kind, ...]` whose
first element is `l` (ASCII case-insensitively) and whose second element
parses as a float yields `(kind, value)`. -/
def nostr_tag_match_l (t : Tag) : Option (String × ℚ) :=
  match t with
  | v0 :: v1 :: v2 :: _ =>
    if strLower v0 = "l" then (parseF64 v1).map fun value => (v2, value)
    else none
  | _ => none

/-- Embedding of `nostr_tag_match_location`: a tag
`[location, address, region, country, ...]`. -/
def nostr_tag_match_location (t : Tag) : Option (String × String × String) :=
  match t with
  | v0 :: v1 :: v2 :: v3 :: _ =>
    if v0 = "location" then some (v1, v2, v3) else none
  | _ => none

/-- Embedding of `nostr_tag_match_geohash`: the standardized geohash tag
`[g, geohash, ...]`. -/
def nostr_tag_match_geohash (t : Tag) : Option String :=
  match t with
  | v0 :: v1 :: _ => if v0 = "g" then some v1 else none
  | _ => none

/-- Embedding of `nostr_tag_match_title`: the standardized title tag. -/
def nostr_tag_match_title (t : Tag) : Option String :=
  match t with
  | v0 :: v1 :: _ => if v0 = "title" then some v1 else none
  | _ => none

/-- Embedding of `nostr_tag_match_summary`: the standardized summary tag. -/
def nostr_tag_match_summary (t : Tag) : Option String :=
  match t with
  | v0 :: v1 :: _ => if v0 = "summary" then some v1 else none
  | _ => none

/-! ## Messages, keys, and encrypted-envelope resolution -/

/-- NostrEvent: the fields of a message consumed by the embedded functions.
Identifiers and public keys are modelled as their hex strings. -/
structure NostrEvent where
  id : String
  pubkey : String
  content : String
  tags : List Tag
  kind : ℕ
  deriving DecidableEq, Repr

/-- Keys: an identity key pair.  `public_key` stands for the public key
derived from `secret_key`. -/
structure Keys where
  secret_key : String
  public_key : String
  deriving DecidableEq, Repr

inductive NostrTagsResolveError where
  | MissingPTag (event : NostrEvent)
  | NotRecipient
  | DecryptionError (msg : String)
  | ParseError (msg : String)
  deriving DecidableEq, Repr

/-- Embedding of `nostr_tags_resolve`.  The external collaborators are
explicit parameters: `parsePk` models `str::parse::<PublicKey>` (hex/bech32
validation), `decrypt` models the NIP-04 `decrypt` primitive applied to
`(secret_key, sender_pubkey, content)`, and `parseTags` models
deserializing the decrypted plaintext as a JSON tag list. -/
def nostr_tags_resolve (parsePk : String → Option String)
    (decrypt : String → String → String → Except String String)
    (parseTags : String → Except String (List Tag))
    (event : NostrEvent) (keys : Keys) :
    Except NostrTagsResolveError (List Tag) :=
  if event.tags.any (fun t => tagKind t == TagKind.encrypted) then
    let recipient? := event.tags.findSome? fun t =>
      if tagKind t = .singleLetter 'p' then (tagContent t).bind parsePk else none
    match recipient? with
    | none => .error (.MissingPTag event)
    | some recipient =>
      if recipient ≠ keys.public_key then .error .NotRecipient
      else
        match decrypt keys.secret_key event.pubkey event.content with
        | .error e => .error (.DecryptionError e)
        | .ok cleartext =>
          match parseTags cleartext with
          | .error e => .error (.ParseError e)
          | .ok decrypted_tags => .ok decrypted_tags
  else .ok event.tags

/-! ## Listing reconstruction — `EventClassified::from_event` -/

/-- Multiplicity of the factor `p` in `n`, with explicit fuel (structural
recursion so that concrete instances evaluate). -/
def countFactorAux (p : ℕ) : ℕ → ℕ → ℕ
  | 0, _ => 0
  | fuel + 1, n =>
    if 2 ≤ p ∧ 0 < n ∧ n % p = 0 then countFactorAux p fuel (n / p) + 1
    else 0

/-- Multiplicity of the factor `p` in `n` (0 when `p < 2` or `n = 0`);
`n` itself is always enough fuel since the multiplicity is at most
`log p n`. -/
def countFactor (p n : ℕ) : ℕ := countFactorAux p n n

/-- Decimal precision of a rational: the digit count after the decimal
point in its shortest decimal rendering, i.e. the least `n` with
`q * 10^n ∈ ℤ`.  This models the Rust idiom
`v.to_string().split('.').nth(1).map_or(0, |s| s.len())` for every value
whose denominator divides a power of 10 — which covers every value produced
by parsing a decimal literal, the only values reaching this computation. -/
def decPrecision (q : ℚ) : ℕ :=
  max (countFactor 2 q.den) (countFactor 5 q.den)

/-- The mutable locals of the `from_event` folding loop, as one state. -/
structure FromEventState where
  prices : List EventClassifiedPrice
  quantities : List EventClassifiedQuantity
  basis : EventClassifiedBasis
  listing : EventClassifiedListing
  address : Option String
  region : Option String
  country : Option String
  lat : Option ℚ
  lng : Option ℚ
  geohash : Option String
  discounts : List EventClassifiedDiscount
  deriving DecidableEq, Repr

def initFromEventState : FromEventState :=
  { prices := [], quantities := [],
    basis := { title := "", summary := "" },
    listing := { key := "", category := "", process := none, lot := none,
                 profile := none, year := none },
    address := none, region := none, country := none,
    lat := none, lng := none, geohash := none, discounts := [] }

/-- The custom-kinded-tag match of the `from_event` loop: quantities,
prices, listing metadata and discount rules.  Per-value parse failures
leave the state unchanged (quantity/price) or default to 0 (discounts). -/
def applyCustom (st : FromEventState) (key : String) (values : List String) :
    FromEventState :=
  if key = "quantity" then
    match values with
    | amount_str :: unit_str :: label :: _ =>
      match parseF64 amount_str, MassUnit.fromStr unit_str with
      | some amount, some unit =>
        { st with quantities :=
            st.quantities ++ [{ amount := amount, unit := unit, label := label }] }
      | _, _ => st
    | _ => st
  else if key = "price" then
    match values with
    | amount_str :: currency :: quantity_amount_str :: quantity_unit_str :: _ =>
      match parseF64 amount_str, parseF64 quantity_amount_str,
          MassUnit.fromStr (strLower quantity_unit_str) with
      | some amount, some quantity_amount, some quantity_unit =>
        { st with prices := st.prices ++
            [{ amount := amount, currency := currency,
               quantity_amount := quantity_amount, quantity_unit := quantity_unit }] }
      | _, _, _ => st
    | _ => st
  else if key = "key" then
    match values with
    | v :: _ => { st with listing.key := v }
    | _ => st
  else if key = "category" then
    match values with
    | v :: _ => { st with listing.category := v }
    | _ => st
  else if key = "process" then
    match values with
    | v :: _ => { st with listing.process := some v }
    | _ => st
  else if key = "lot" then
    match values with
    | v :: _ => { st with listing.lot := some v }
    | _ => st
  else if key = "profile" then
    match values with
    | v :: _ => { st with listing.profile := some v }
    | _ => st
  else if key = "year" then
    match values with
    | v :: _ => { st with listing.year := some v }
    | _ => st
  else if key = "price-discount-subtotal" then
    match values with
    | v0 :: v1 :: v2 :: v3 :: _ =>
      let threshold := (parseF64 v0).getD 0
      let value := (parseF64 v2).getD 0
      let is_percent := v3 == "%"
      { st with discounts :=
          st.discounts ++ [.Subtotal threshold v1 value is_percent] }
    | _ => st
  else if key = "price-discount-mass" then
    match values with
    | v0 :: v1 :: v2 :: v3 :: v4 :: _ =>
      let threshold := (parseF64 v1).getD 0
      let discount_per_unit := (parseF64 v3).getD 0
      { st with discounts :=
          st.discounts ++ [.Mass v0 threshold v2 discount_per_unit v4] }
    | _ => st
  else if key = "price-discount-quantity" then
    match values with
    | v0 :: v1 :: v2 :: v3 :: _ =>
      let min_count := (parseU32 v1).getD 0
      let discount_per_unit := (parseF64 v2).getD 0
      { st with discounts :=
          st.discounts ++ [.Quantity v0 min_count discount_per_unit v3] }
    | _ => st
  else st

/-- The geolocation-precision match of the `from_event` loop: a `dd.lat` /
`dd.lon` value replaces the held one only when its decimal precision
strictly exceeds the current precision (0 when no value is held). -/
def applyL (st : FromEventState) (kind : String) (value : ℚ) : FromEventState :=
  let precision := decPrecision value
  if kind = "dd.lat" then
    let current_precision := (st.lat.map decPrecision).getD 0
    if current_precision < precision then { st with lat := some value } else st
  else if kind = "dd.lon" then
    let current_precision := (st.lng.map decPrecision).getD 0
    if current_precision < precision then { st with lng := some value } else st
  else st

/-- One iteration of the `from_event` tag loop: the custom match, the
coordinate match, the location / geohash / title / summary matches are
tried in sequence, exactly as in the source. -/
def from_event_step (st : FromEventState) (tag : Tag) : FromEventState :=
  let st :=
    match nostr_tags_match tag with
    | some (key, values) => applyCustom st key values
    | none => st
  let st :=
    match nostr_tag_match_l tag with
    | some (kind, value) => applyL st kind value
    | none => st
  let st :=
    match nostr_tag_match_location tag with
    | some (addr, reg, coun) =>
      { st with address := some addr, region := some reg, country := some coun }
    | none => st
  let st :=
    match nostr_tag_match_geohash tag with
    | some g =>
      if st.geohash.all fun current => current.length < g.length then
        { st with geohash := some g }
      else st
    | none => st
  let st :=
    match nostr_tag_match_title tag with
    | some title => { st with basis.title := title }
    | none => st
  let st :=
    match nostr_tag_match_summary tag with
    | some summary => { st with basis.summary := summary }
    | none => st
  st

/-- Finalization of the fold state into an `EventClassified`: a location is
present iff any of its parts was set, a geolocation iff both coordinates
were set. -/
def finalizeFromEvent (id : String) (st : FromEventState) : EventClassified :=
  let location :=
    if st.address.isSome ∨ st.region.isSome ∨ st.country.isSome then
      some { address := st.address.getD "", region := st.region.getD "",
             country := st.country.getD "" }
    else none
  let geolocation :=
    match st.lat, st.lng with
    | some lat, some lng => some { geohash := st.geohash, lat := lat, lng := lng }
    | _, _ => none
  { id := id, basis := st.basis, listing := st.listing, prices := st.prices,
    quantities := st.quantities, discounts := st.discounts,
    location := location, geolocation := geolocation }

/-- Embedding of `EventClassified::from_event`.  The Rust signature returns
`anyhow::Result`, but no code path produces an error; the `Except` layer is
kept to mirror the signature. -/
def from_event (event : NostrEvent) : Except String EventClassified :=
  .ok (finalizeFromEvent event.id (event.tags.foldl from_event_step initFromEventState))

/-! ## Job-request parsing and dispatch — `src/events/job_request.rs` -/

inductive JobRequestError where
  | JobRequestOrder (e : JobRequestOrderError)
  | MassUnit (msg : String)
  | NostrTagsResolve (e : NostrTagsResolveError)
  | InvalidInputType (raw : String)
  | InvalidInputMarker (raw : String)
  | Serde (msg : String)
  | Failure
  deriving DecidableEq, Repr

inductive JobRequestInputType where
  | Url
  | Event
  | Job
  | Text
  deriving DecidableEq, Repr

/-- Embedding of `TryFrom<&str> for JobRequestInputType`. -/
def JobRequestInputType.tryFrom (s : String) :
    Except JobRequestError JobRequestInputType :=
  match s with
  | "url" => .ok .Url
  | "event" => .ok .Event
  | "job" => .ok .Job
  | "text" => .ok .Text
  | other => .error (.InvalidInputType other)

inductive JobRequestInputMarker where
  | Order
  | Quote
  | Preview
  deriving DecidableEq, Repr

/-- Embedding of `TryFrom<&str> for JobRequestInputMarker`. -/
def JobRequestInputMarker.tryFrom (s : String) :
    Except JobRequestError JobRequestInputMarker :=
  match s with
  | "order" => .ok .Order
  | "quote" => .ok .Quote
  | "preview" => .ok .Preview
  | other => .error (.InvalidInputMarker other)

structure JobRequestInput where
  data : String
  input_type : JobRequestInputType
  relay : Option String
  marker : Option JobRequestInputMarker
  deriving DecidableEq, Repr

structure JobRequest where
  id : String
  inputs : List JobRequestInput
  output : Option String
  bid_msat : Option ℕ
  relays : List String
  service_providers : List String
  params : List (String × String)
  hashtags : List String
  tags : List Tag
  deriving DecidableEq, Repr

/-- The mutable locals of the `parse_event` folding loop, as one state. -/
structure JobParseState where
  inputs : List JobRequestInput
  output : Option String
  bid_msat : Option ℕ
  relays : List String
  providers : List String
  params : List (String × String)
  hashtags : List String
  deriving DecidableEq, Repr

def initJobParseState : JobParseState :=
  { inputs := [], output := none, bid_msat := none, relays := [],
    providers := [], params := [], hashtags := [] }

/-- One iteration of the `parse_event` tag loop.  The match arms follow the
source order: `i`, `t`, `output`, `bid`, `param`, relay-list, `p`, default.
A failing input-type or marker conversion propagates as an error and aborts
the fold (the source's `?`). -/
def parse_tags_step (st : JobParseState) (tag : Tag) :
    Except JobRequestError JobParseState :=
  match tagKind tag with
  | .singleLetter c =>
    if c = 'i' then
      match nostr_tag_slice tag 1 with
      | some vals =>
        match vals with
        | data :: input_type_str :: relay :: marker_str :: _ =>
          match JobRequestInputType.tryFrom input_type_str with
          | .error e => .error e
          | .ok input_type =>
            match JobRequestInputMarker.tryFrom marker_str with
            | .error e => .error e
            | .ok marker =>
              .ok { st with inputs := st.inputs ++
                      [{ data := data, input_type := input_type,
                         relay := some relay, marker := some marker }] }
        | _ => .ok st
      | none => .ok st
    else if c = 't' then
      match nostr_tag_first_value tag "t" with
      | some val => .ok { st with hashtags := st.hashtags ++ [val] }
      | none => .ok st
    else if c = 'p' then
      match nostr_tag_at_value tag 1 with
      | some pk => .ok { st with providers := st.providers ++ [pk] }
      | none => .ok st
    else .ok st
  | .custom k =>
    if k = "output" then .ok { st with output := nostr_tag_first_value tag k }
    else if k = "bid" then
      .ok { st with bid_msat := (nostr_tag_first_value tag k).bind parseU64 }
    else if k = "param" then
      match nostr_tag_slice tag 1 with
      | some vals =>
        match vals with
        | v0 :: v1 :: _ => .ok { st with params := st.params ++ [(v0, v1)] }
        | _ => .ok st
      | none => .ok st
    else .ok st
  | .relays =>
    match nostr_tag_relays_parse tag with
    | some urls => .ok { st with relays := urls }
    | none => .ok st
  | _ => .ok st

/-- Embedding of `parse_event`: resolve the tags, then fold them into a
`JobRequest`.  The external collaborators of the resolver are threaded
through unchanged. -/
def parse_event (parsePk : String → Option String)
    (decrypt : String → String → String → Except String String)
    (parseTags : String → Except String (List Tag))
    (event : NostrEvent) (keys : Keys) :
    Except JobRequestError JobRequest :=
  match nostr_tags_resolve parsePk decrypt parseTags event keys with
  | .error e => .error (.NostrTagsResolve e)
  | .ok tags =>
    match tags.foldlM parse_tags_step initJobParseState with
    | .error e => .error e
    | .ok st =>
      .ok { id := event.id, inputs := st.inputs, output := st.output,
            bid_msat := st.bid_msat, relays := st.relays,
            service_providers := st.providers, params := st.params,
            hashtags := st.hashtags, tags := tags }

/-- The per-input dispatch loop of `handle_event`: each input with a marker
is routed to its handler (the invocation is recorded in the trace; handler
failures are caught inside `process_job_request` and do not abort the
loop), and an input with no marker aborts the loop with
`InvalidInputMarker` carrying the request id.  Returns the dispatch trace
and the error, if any. -/
def dispatchInputs (id : String) :
    List JobRequestInput →
    List (JobRequestInputMarker × JobRequestInput) × Option JobRequestError
  | [] => ([], none)
  | input :: rest =>
    match input.marker with
    | none => ([], some (.InvalidInputMarker id))
    | some m =>
      let (trace, err) := dispatchInputs id rest
      ((m, input) :: trace, err)

/-- Embedding of `handle_event`: parse the message, then dispatch each
input by marker.  The result is the trace of handler invocations together
with the error that aborted processing, if any. -/
def handle_event (parsePk : String → Option String)
    (decrypt : String → String → String → Except String String)
    (parseTags : String → Except String (List Tag))
    (event : NostrEvent) (keys : Keys) :
    List (JobRequestInputMarker × JobRequestInput) × Option JobRequestError :=
  match parse_event parsePk decrypt parseTags event keys with
  | .error e => ([], some e)
  | .ok job_req => dispatchInputs job_req.id job_req.inputs

/-! ## Fixtures used by the concrete theorems and witnesses -/

/-- Sample number formatter for concrete instances: it agrees with Rust's
`f64` `Display` on integer values, the only values it is applied to. -/
def fmtSample (q : ℚ) : String := toString q.num

/-- The happy-path listing: quantity `1 kg "bag"`, tier `10 usd / 1 kg`,
10% subtotal discount above 5 usd. -/
def listingC1 : EventClassified :=
  { id := "lid",
    basis := { title := "", summary := "" },
    listing := { key := "", category := "", process := none, lot := none,
                 profile := none, year := none },
    prices := [{ amount := 10, currency := "usd", quantity_amount := 1,
                 quantity_unit := .Kg }],
    quantities := [{ amount := 1, unit := .Kg, label := "bag" }],
    discounts := [.Subtotal 5 "usd" 10 true],
    location := none, geolocation := none }

/-- The happy-path order: 2 bags of 1 kg at the listed tier. -/
def orderC1 : JobRequestOrderDataOrder :=
  { price := { amount := 10, currency := "usd", quantity_amount := 1,
               quantity_unit := "kg" },
    quantity := { amount := 1, unit := "kg", count := 2, mass_g := 1000,
                  label := "bag" } }

/-- The expected happy-path result: subtotal 20, one subtotal discount of
2, total 18, total quantity 2 kg. -/
def resultC1 : OrderClassifiedResult :=
  { quantity := { amount := 1, unit := "kg", label := "bag" },
    price := { amount := 10, currency := "usd", quantity_amount := 1,
               quantity_unit := "kg" },
    discounts := [{ discount_type := "subtotal",
                    threshold := some 5,
                    threshold_unit := none,
                    discount_per_unit := none,
                    discount_unit := none,
                    discount_percent := some 10,
                    discount_amount := 2,
                    currency := "usd" }],
    subtotal := { price_amount := 20, price_currency := "usd",
                  quantity_amount := 2, quantity_unit := "kg" },
    total := { price_amount := 18, price_currency := "usd",
               quantity_amount := 2, quantity_unit := "kg" } }

/-! ## C1 — end-to-end happy path -/

/-- C1: for the listing with quantity `(1, kg, "bag")`, tier
`(10, usd, 1, kg)` and subtotal discount `(threshold 5, usd, 10, percent)`,
an order of 2 bags of 1 kg at that tier succeeds with total quantity 2 kg,
subtotal 20.00, exactly one applied subtotal discount of 2.00 and total
18.00 — each money amount produced by the round-to-2-decimals half-up
rounding of the scaled integer, as implemented by `roundTo2`.  The result
is independent of the number formatter. -/
theorem calculate_order_happy_path (fmt : ℚ → String) :
    calculate_order fmt listingC1 orderC1 = .ok resultC1 := by
  with_unfolding_all rfl

/-! ## C8 — mass conversion round-trips -/

/-- C8: for every positive amount and every pair of mass units, converting
there and back returns the original amount within `f64::EPSILON` (in the
rational model the round-trip is exact, since conversion routes through the
fixed gram factors). -/
theorem convert_mass_round_trip (a : ℚ) (u v : MassUnit) (h : 0 < a) :
    ratAbs (convert_mass (convert_mass a u v) v u - a) < f64EPSILON := by
  have hu : u.to_grams ≠ 0 := by cases u <;> norm_num [MassUnit.to_grams]
  have hv : v.to_grams ≠ 0 := by cases v <;> norm_num [MassUnit.to_grams]
  have hexact : convert_mass (convert_mass a u v) v u = a := by
    unfold convert_mass
    field_simp
  rw [hexact]
  simp only [sub_self, ratAbs_eq_abs, abs_zero, f64EPSILON]
  norm_num

/-- Witness for C8 at `a = 1`, `u = oz`, `v = lb`. -/
theorem convert_mass_round_trip_witness :
    (0 : ℚ) < 1 ∧ ratAbs (convert_mass (convert_mass 1 .Oz .Lb) .Lb .Oz - 1) < f64EPSILON :=
  ⟨by norm_num, convert_mass_round_trip 1 .Oz .Lb (by norm_num)⟩

/-! ## C3 — encrypted-envelope resolution -/

/-- C3: for every message and identity keys: (1) a message marked encrypted
with no recipient-identity (`p`) tag resolves to the missing-recipient
error, for every decrypt primitive — the decrypt primitive is never
consulted; (2) a message marked encrypted whose resolved recipient differs
from the caller's own public identity fails with the not-recipient error;
(3) a message not marked encrypted resolves to its own tags unchanged, with
no identity check. -/
theorem nostr_tags_resolve_spec (parsePk : String → Option String)
    (decrypt : String → String → String → Except String String)
    (parseTags : String → Except String (List Tag))
    (event : NostrEvent) (keys : Keys) :
    ((event.tags.any fun t => tagKind t == TagKind.encrypted) = true →
      (∀ t ∈ event.tags, tagKind t ≠ .singleLetter 'p') →
      ∀ decrypt2 : String → String → String → Except String String,
        nostr_tags_resolve parsePk decrypt2 parseTags event keys
          = .error (.MissingPTag event))
    ∧ (∀ r, (event.tags.any fun t => tagKind t == TagKind.encrypted) = true →
      (event.tags.findSome? fun t =>
        if tagKind t = .singleLetter 'p' then (tagContent t).bind parsePk
        else none) = some r →
      r ≠ keys.public_key →
      nostr_tags_resolve parsePk decrypt parseTags event keys
        = .error .NotRecipient)
    ∧ ((event.tags.any fun t => tagKind t == TagKind.encrypted) = false →
      nostr_tags_resolve parsePk decrypt parseTags event keys = .ok event.tags) := by
  refine ⟨?_, ?_, ?_⟩
  · intro henc hnop decrypt2
    unfold nostr_tags_resolve
    rw [henc]
    have hnone : (event.tags.findSome? fun t =>
        if tagKind t = .singleLetter 'p' then (tagContent t).bind parsePk
        else none) = none := by
      rw [List.findSome?_eq_none_iff]
      intro t ht
      simp [hnop t ht]
    simp [hnone]
  · intro r henc hfind hne
    unfold nostr_tags_resolve
    rw [henc]
    simp only [if_true]
    rw [hfind]
    simp [hne]
  · intro henc
    unfold nostr_tags_resolve
    rw [henc]
    simp

/-- Fixture decrypt primitive that always fails. -/
def decryptFail : String → String → String → Except String String :=
  fun _ _ _ => .error "decrypt failure"

/-- Fixture tag-list JSON parser that always fails. -/
def parseTagsFail : String → Except String (List Tag) :=
  fun _ => .error "bad json"

/-- An encrypted message with no `p` tag. -/
def eventNoPTag : NostrEvent :=
  { id := "e1", pubkey := "sender", content := "ciphertext",
    tags := [["encrypted"], ["x", "misc"]], kind := 5300 }

/-- An encrypted message whose recipient tag names somebody else. -/
def eventWrongRecipient : NostrEvent :=
  { id := "e2", pubkey := "sender", content := "ciphertext",
    tags := [["encrypted"], ["p", "alice"]], kind := 5300 }

/-- A plain (unencrypted) message. -/
def eventPlain : NostrEvent :=
  { id := "e3", pubkey := "sender", content := "hello",
    tags := [["t", "topic"], ["p", "alice"]], kind := 5300 }

/-- The processor's keys; the public identity is `bob`. -/
def keysBob : Keys := { secret_key := "sk-bob", public_key := "bob" }

/-- Witness for C3: the three conjuncts applied to concrete messages. -/
theorem nostr_tags_resolve_spec_witness :
    nostr_tags_resolve some decryptFail parseTagsFail eventNoPTag keysBob
        = .error (.MissingPTag eventNoPTag)
    ∧ nostr_tags_resolve some decryptFail parseTagsFail eventWrongRecipient keysBob
        = .error .NotRecipient
    ∧ nostr_tags_resolve some decryptFail parseTagsFail eventPlain keysBob
        = .ok eventPlain.tags := by
  refine ⟨?_, ?_, ?_⟩
  · exact (nostr_tags_resolve_spec some decryptFail parseTagsFail eventNoPTag
      keysBob).1 (by decide) (by decide) decryptFail
  · exact (nostr_tags_resolve_spec some decryptFail parseTagsFail
      eventWrongRecipient keysBob).2.1 "alice" (by decide) (by decide) (by decide)
  · exact (nostr_tags_resolve_spec some decryptFail parseTagsFail eventPlain
      keysBob).2.2 (by decide)

/-! ## C4 — stale-price guard -/

/-- C4: when a listing tier matches the requested price's quantity unit,
quantity amount (within epsilon) and currency (case-insensitively) — i.e.
the tier search succeeds — but the tier amount differs from the requested
amount by more than `f64::EPSILON`, the whole computation fails with
`Unsatisfiable` whose message reports the expected (tier) amount and the
got (requested) amount.  The packaging and unit guards are assumed passed,
since they run first. -/
theorem calculate_order_price_mismatch (fmt : ℚ → String)
    (L : EventClassified) (order : JobRequestOrderDataOrder)
    (qty_unit price_unit : MassUnit) (tier : EventClassifiedPrice)
    (hq : MassUnit.fromStr order.quantity.unit = some qty_unit)
    (hp : MassUnit.fromStr order.price.quantity_unit = some price_unit)
    (hpack : (L.quantities.any fun q =>
      decide (q.unit = qty_unit) &&
        decide (ratAbs (q.amount - order.quantity.amount) < f64EPSILON)) = true)
    (htier : L.prices.find? (tierMatches price_unit order.price) = some tier)
    (hmis : f64EPSILON < ratAbs (tier.amount - order.price.amount)) :
    calculate_order fmt L order = .error (.Unsatisfiable
      ("price mismatch: expected " ++ fmt tier.amount ++ ", got "
        ++ fmt order.price.amount)) := by
  unfold calculate_order
  simp only [hq, hp, hpack, htier, Bool.not_true, Bool.false_eq_true, if_false]
  rw [if_pos hmis]

/-- The mismatch listing: one tier `10 usd / 1 kg`, one packaging
`1 kg "bag"`, no discounts. -/
def listingC4 : EventClassified :=
  { id := "lid4",
    basis := { title := "", summary := "" },
    listing := { key := "", category := "", process := none, lot := none,
                 profile := none, year := none },
    prices := [{ amount := 10, currency := "usd", quantity_amount := 1,
                 quantity_unit := .Kg }],
    quantities := [{ amount := 1, unit := .Kg, label := "bag" }],
    discounts := [],
    location := none, geolocation := none }

/-- The mismatch order: same packaging and tier shape, but requested
amount 11 against the listed 10. -/
def orderC4 : JobRequestOrderDataOrder :=
  { price := { amount := 11, currency := "usd", quantity_amount := 1,
               quantity_unit := "kg" },
    quantity := { amount := 1, unit := "kg", count := 1, mass_g := 1000,
                  label := "bag" } }

/-- Witness for C4: tier amount 10 against requested 11 yields
`Unsatisfiable` citing expected 10 got 11. -/
theorem calculate_order_price_mismatch_witness :
    calculate_order fmtSample listingC4 orderC4
      = .error (.Unsatisfiable "price mismatch: expected 10, got 11") := by
  have h := calculate_order_price_mismatch fmtSample listingC4 orderC4 .Kg .Kg
    { amount := 10, currency := "usd", quantity_amount := 1, quantity_unit := .Kg }
    (by with_unfolding_all decide) (by with_unfolding_all decide)
    (by with_unfolding_all decide) (by with_unfolding_all decide)
    (by with_unfolding_all decide)
  with_unfolding_all exact h

/-! ## Discount-loop lemmas shared by the discount claims -/

/-- A single discount step either succeeds or fails with one of the two
invalid-unit messages of the Mass arm. -/
lemma calcDiscountStep_ok_or_unit_error (S T : ℚ) (U : MassUnit) (PK : String)
    (C : ℕ) (acc : List OrderClassifiedDiscount) (d : EventClassifiedDiscount) :
    (∃ acc2, calcDiscountStep S T U PK C acc d = .ok acc2) ∨
    (∃ m, (m = "invalid threshold unit" ∨ m = "invalid discount unit") ∧
      calcDiscountStep S T U PK C acc d = .error (.Unsatisfiable m)) := by
  cases d with
  | Subtotal threshold currency value is_percent =>
    left
    simp only [calcDiscountStep]
    split
    · exact ⟨_, rfl⟩
    · exact ⟨_, rfl⟩
  | Mass du th tu dpu cur =>
    simp only [calcDiscountStep]
    cases htu : MassUnit.fromStr tu with
    | none => right; exact ⟨_, Or.inl rfl, rfl⟩
    | some th_unit =>
      dsimp only
      cases hdu : MassUnit.fromStr du with
      | none => right; exact ⟨_, Or.inr rfl, rfl⟩
      | some dis_unit =>
        dsimp only
        left
        split
        · exact ⟨_, rfl⟩
        · exact ⟨_, rfl⟩
  | Quantity pk mc dpu cur =>
    left
    simp only [calcDiscountStep]
    split
    · exact ⟨_, rfl⟩
    · exact ⟨_, rfl⟩

/-- A Mass discount with an unparseable threshold or discount unit makes
its step fail with the corresponding message. -/
lemma calcDiscountStep_bad_mass (S T : ℚ) (U : MassUnit) (PK : String) (C : ℕ)
    (acc : List OrderClassifiedDiscount) (du : String) (th : ℚ) (tu : String)
    (dpu : ℚ) (cur : String)
    (hbad : MassUnit.fromStr tu = none ∨ MassUnit.fromStr du = none) :
    ∃ m, (m = "invalid threshold unit" ∨ m = "invalid discount unit") ∧
      calcDiscountStep S T U PK C acc (.Mass du th tu dpu cur)
        = .error (.Unsatisfiable m) := by
  simp only [calcDiscountStep]
  cases htu : MassUnit.fromStr tu with
  | none => exact ⟨_, Or.inl rfl, rfl⟩
  | some th_unit =>
    cases hdu : MassUnit.fromStr du with
    | none => exact ⟨_, Or.inr rfl, rfl⟩
    | some dis_unit =>
      rcases hbad with h | h
      · rw [htu] at h; cases h
      · rw [hdu] at h; cases h

/-- If some Mass discount in the list has an unparseable unit, the whole
discount fold fails with one of the two invalid-unit messages, whatever the
accumulator. -/
lemma discounts_foldlM_bad_mass (S T : ℚ) (U : MassUnit) (PK : String) (C : ℕ) :
    ∀ (ds : List EventClassifiedDiscount) (acc : List OrderClassifiedDiscount),
    (∃ du th tu dpu cur, EventClassifiedDiscount.Mass du th tu dpu cur ∈ ds ∧
      (MassUnit.fromStr tu = none ∨ MassUnit.fromStr du = none)) →
    ∃ m, (m = "invalid threshold unit" ∨ m = "invalid discount unit") ∧
      ds.foldlM (calcDiscountStep S T U PK C) acc = .error (.Unsatisfiable m) := by
  intro ds
  induction ds with
  | nil =>
    intro acc h
    obtain ⟨_, _, _, _, _, hmem, _⟩ := h
    cases hmem
  | cons d ds ih =>
    intro acc h
    obtain ⟨du, th, tu, dpu, cur, hmem, hbad⟩ := h
    rw [List.foldlM_cons]
    rcases List.mem_cons.mp hmem with heq | htail
    · subst heq
      obtain ⟨m, hm, hstep⟩ := calcDiscountStep_bad_mass S T U PK C acc du th tu dpu cur hbad
      refine ⟨m, hm, ?_⟩
      rw [hstep]
      rfl
    · rcases calcDiscountStep_ok_or_unit_error S T U PK C acc d with ⟨acc2, hok⟩ | ⟨m, hm, herr⟩
      · obtain ⟨m, hm, hrest⟩ := ih acc2 ⟨du, th, tu, dpu, cur, htail, hbad⟩
        refine ⟨m, hm, ?_⟩
        rw [hok]
        exact hrest
      · refine ⟨m, hm, ?_⟩
        rw [herr]
        rfl

/-! ## C9 — invalid Mass-discount units poison the whole computation -/

/-- C9: once an order passes the unit, packaging and tier checks, a listing
that contains a Mass discount whose threshold or discount unit is not one
of `g`/`kg`/`oz`/`lb` makes the entire computation fail with
`Unsatisfiable` ("invalid threshold unit" or "invalid discount unit") — no
threshold condition is consulted first, so this happens even when the
discount would not have applied. -/
theorem calculate_order_bad_mass_discount_unit (fmt : ℚ → String)
    (L : EventClassified) (order : JobRequestOrderDataOrder)
    (qty_unit price_unit : MassUnit) (tier : EventClassifiedPrice)
    (du : String) (th : ℚ) (tu : String) (dpu : ℚ) (cur : String)
    (hq : MassUnit.fromStr order.quantity.unit = some qty_unit)
    (hp : MassUnit.fromStr order.price.quantity_unit = some price_unit)
    (hpack : (L.quantities.any fun q =>
      decide (q.unit = qty_unit) &&
        decide (ratAbs (q.amount - order.quantity.amount) < f64EPSILON)) = true)
    (htier : L.prices.find? (tierMatches price_unit order.price) = some tier)
    (hok : ¬ f64EPSILON < ratAbs (tier.amount - order.price.amount))
    (hmem : EventClassifiedDiscount.Mass du th tu dpu cur ∈ L.discounts)
    (hbad : MassUnit.fromStr tu = none ∨ MassUnit.fromStr du = none) :
    ∃ m, (m = "invalid threshold unit" ∨ m = "invalid discount unit") ∧
      calculate_order fmt L order = .error (.Unsatisfiable m) := by
  obtain ⟨m, hm, hfold⟩ := discounts_foldlM_bad_mass
    (roundTo2 (tier.amount / tier.quantity_amount *
      convert_mass (order.quantity.amount * (order.quantity.count : ℚ)) qty_unit price_unit))
    (order.quantity.amount * (order.quantity.count : ℚ)) qty_unit
    (packageKeyOf fmt order.quantity) order.quantity.count
    L.discounts [] ⟨du, th, tu, dpu, cur, hmem, hbad⟩
  refine ⟨m, hm, ?_⟩
  unfold calculate_order
  simp only [hq, hp, hpack, Bool.not_true, Bool.false_eq_true, if_false, htier]
  rw [if_neg hok, hfold]

/-- The C9 listing: the C1 commerce data plus a Mass discount with
threshold unit `stone` (unsupported) and a threshold far above the order's
mass. -/
def listingC9 : EventClassified :=
  { id := "lid9",
    basis := { title := "", summary := "" },
    listing := { key := "", category := "", process := none, lot := none,
                 profile := none, year := none },
    prices := [{ amount := 10, currency := "usd", quantity_amount := 1,
                 quantity_unit := .Kg }],
    quantities := [{ amount := 1, unit := .Kg, label := "bag" }],
    discounts := [.Mass "g" 999999 "stone" 0.01 "usd"],
    location := none, geolocation := none }

/-- The C9 order: 2 bags of 1 kg, far below the discount threshold. -/
def orderC9 : JobRequestOrderDataOrder :=
  { price := { amount := 10, currency := "usd", quantity_amount := 1,
               quantity_unit := "kg" },
    quantity := { amount := 1, unit := "kg", count := 2, mass_g := 1000,
                  label := "bag" } }

/-- Witness for C9: the unmet-threshold Mass discount with unit `stone`
still fails the whole order. -/
theorem calculate_order_bad_mass_discount_unit_witness :
    ∃ m, (m = "invalid threshold unit" ∨ m = "invalid discount unit") ∧
      calculate_order fmtSample listingC9 orderC9 = .error (.Unsatisfiable m) :=
  calculate_order_bad_mass_discount_unit fmtSample listingC9 orderC9 .Kg .Kg
    { amount := 10, currency := "usd", quantity_amount := 1, quantity_unit := .Kg }
    "g" 999999 "stone" 0.01 "usd"
    (by with_unfolding_all decide) (by with_unfolding_all decide)
    (by with_unfolding_all decide) (by with_unfolding_all decide)
    (by with_unfolding_all decide) (by simp [listingC9])
    (Or.inl (by with_unfolding_all decide))

/-! ## C7 — quantity-discount gating -/

lemma string_append_left_cancel (s a b : String) (h : s ++ a = s ++ b) : a = b := by
  have hd := congrArg String.data h
  simp only [String.data_append] at hd
  exact String.ext (List.append_cancel_left hd)

/-- The discount-loop result on a listing holding exactly one Quantity
discount: the applied entry appears iff the packaging key matches exactly
and the count reaches the minimum. -/
lemma discounts_foldlM_singleton_quantity (S T : ℚ) (U : MassUnit) (PK : String)
    (C : ℕ) (pk : String) (mc : ℕ) (dpu : ℚ) (cur : String) :
    List.foldlM (calcDiscountStep S T U PK C) []
        [EventClassifiedDiscount.Quantity pk mc dpu cur]
      = .ok (if pk = PK ∧ mc ≤ C
          then [{ discount_type := "quantity", threshold := some (mc : ℚ),
                  threshold_unit := none, discount_per_unit := some dpu,
                  discount_unit := none, discount_percent := none,
                  discount_amount := roundTo2 (dpu * (C : ℚ)), currency := cur }]
          else []) := by
  simp only [List.foldlM_cons, List.foldlM_nil, calcDiscountStep]
  by_cases h : pk = PK ∧ mc ≤ C
  · rw [if_pos h, if_neg]
    · rfl
    · rintro (h1 | h2)
      · exact h1 h.1
      · exact absurd h.2 (not_le.mpr h2)
  · rw [if_neg h, if_pos]
    · rfl
    · rw [not_and_or, not_le] at h
      exact h

/-- C7: when an order passes the unit, packaging and tier checks against a
listing holding one Quantity discount, the discount is applied iff the
derived packaging key built from the requested quantity equals the
discount's `product_key` exactly and the requested count is at least
`min_count`; when applied, its amount is `round2(discount_per_unit *
count)`; and a product key agreeing on amount and unit but differing in
label never applies, regardless of count. -/
theorem calculate_order_quantity_discount (fmt : ℚ → String)
    (L : EventClassified) (order : JobRequestOrderDataOrder)
    (qty_unit price_unit : MassUnit) (tier : EventClassifiedPrice)
    (pk : String) (mc : ℕ) (dpu : ℚ) (cur : String)
    (hq : MassUnit.fromStr order.quantity.unit = some qty_unit)
    (hp : MassUnit.fromStr order.price.quantity_unit = some price_unit)
    (hpack : (L.quantities.any fun q =>
      decide (q.unit = qty_unit) &&
        decide (ratAbs (q.amount - order.quantity.amount) < f64EPSILON)) = true)
    (htier : L.prices.find? (tierMatches price_unit order.price) = some tier)
    (hok : ¬ f64EPSILON < ratAbs (tier.amount - order.price.amount))
    (hd : L.discounts = [.Quantity pk mc dpu cur]) :
    ∃ res, calculate_order fmt L order = .ok res ∧
      (res.discounts ≠ [] ↔
        (pk = packageKeyOf fmt order.quantity ∧ mc ≤ order.quantity.count)) ∧
      ((pk = packageKeyOf fmt order.quantity ∧ mc ≤ order.quantity.count) →
        res.discounts = [{ discount_type := "quantity",
                           threshold := some (mc : ℚ),
                           threshold_unit := none,
                           discount_per_unit := some dpu,
                           discount_unit := none,
                           discount_percent := none,
                           discount_amount := roundTo2 (dpu * (order.quantity.count : ℚ)),
                           currency := cur }]) ∧
      (∀ l, pk = fmt order.quantity.amount ++ "-" ++ strLower order.quantity.unit
          ++ "-" ++ l → l ≠ order.quantity.label → res.discounts = []) := by
  unfold calculate_order
  simp only [hq, hp, hpack, Bool.not_true, Bool.false_eq_true, if_false, htier]
  rw [if_neg hok, hd, discounts_foldlM_singleton_quantity]
  refine ⟨_, rfl, ?_, ?_, ?_⟩
  · by_cases h : pk = packageKeyOf fmt order.quantity ∧ mc ≤ order.quantity.count
    · simp [h]
    · simp [h]
  · intro h
    simp [h]
  · intro l hpk hlbl
    have hcond : ¬ (pk = packageKeyOf fmt order.quantity ∧ mc ≤ order.quantity.count) := by
      rintro ⟨h1, -⟩
      apply hlbl
      apply string_append_left_cancel
        (fmt order.quantity.amount ++ "-" ++ strLower order.quantity.unit ++ "-")
      rw [← hpk, h1]
      rfl
    simp [hcond]

/-- The C7 listing: the C1 commerce data plus a Quantity discount with
product key `1-kg-bag`, minimum count 2, 1 usd off per unit. -/
def listingC7 : EventClassified :=
  { id := "lid7",
    basis := { title := "", summary := "" },
    listing := { key := "", category := "", process := none, lot := none,
                 profile := none, year := none },
    prices := [{ amount := 10, currency := "usd", quantity_amount := 1,
                 quantity_unit := .Kg }],
    quantities := [{ amount := 1, unit := .Kg, label := "bag" }],
    discounts := [.Quantity "1-kg-bag" 2 1 "usd"],
    location := none, geolocation := none }

/-- The C7 order: 2 bags of 1 kg, so the derived key is `1-kg-bag` and the
minimum count is reached. -/
def orderC7 : JobRequestOrderDataOrder :=
  { price := { amount := 10, currency := "usd", quantity_amount := 1,
               quantity_unit := "kg" },
    quantity := { amount := 1, unit := "kg", count := 2, mass_g := 1000,
                  label := "bag" } }

/-- Witness for C7: the matching key and count make the discount apply. -/
theorem calculate_order_quantity_discount_witness :
    ∃ res, calculate_order fmtSample listingC7 orderC7 = .ok res ∧
      res.discounts ≠ [] := by
  obtain ⟨res, hres, hiff, -, -⟩ := calculate_order_quantity_discount fmtSample
    listingC7 orderC7 .Kg .Kg
    { amount := 10, currency := "usd", quantity_amount := 1, quantity_unit := .Kg }
    "1-kg-bag" 2 1 "usd"
    (by with_unfolding_all decide) (by with_unfolding_all decide)
    (by with_unfolding_all decide) (by with_unfolding_all decide)
    (by with_unfolding_all decide) rfl
  exact ⟨res, hres, hiff.mpr ⟨by with_unfolding_all decide, by decide⟩⟩

/-! ## C6 — listing reconstruction is total; per-tag failures drop the tag -/

/-- A `quantity` tag whose amount does not parse leaves the fold state
unchanged: the custom arm drops it and no other matcher consumes a
`quantity`-kinded tag. -/
lemma from_event_step_bad_quantity (st : FromEventState) (a u l : String)
    (rest : List String) (hbad : parseF64 a = none) :
    from_event_step st ("quantity" :: a :: u :: l :: rest) = st := by
  have hk : tagKind ("quantity" :: a :: u :: l :: rest) = .custom "quantity" := by
    with_unfolding_all rfl
  have h1 : nostr_tags_match ("quantity" :: a :: u :: l :: rest)
      = some ("quantity", a :: u :: l :: rest) := by
    simp only [nostr_tags_match]
    rw [hk]
    rfl
  have h2 : nostr_tag_match_l ("quantity" :: a :: u :: l :: rest) = none := by
    simp only [nostr_tag_match_l]
    rw [if_neg (by with_unfolding_all decide : ¬ strLower "quantity" = "l")]
  have h3 : nostr_tag_match_location ("quantity" :: a :: u :: l :: rest) = none := by
    simp only [nostr_tag_match_location]
    rw [if_neg (by decide : ¬ ("quantity" : String) = "location")]
  have h4 : nostr_tag_match_geohash ("quantity" :: a :: u :: l :: rest) = none := by
    simp only [nostr_tag_match_geohash]
    rw [if_neg (by decide : ¬ ("quantity" : String) = "g")]
  have h5 : nostr_tag_match_title ("quantity" :: a :: u :: l :: rest) = none := by
    simp only [nostr_tag_match_title]
    rw [if_neg (by decide : ¬ ("quantity" : String) = "title")]
  have h6 : nostr_tag_match_summary ("quantity" :: a :: u :: l :: rest) = none := by
    simp only [nostr_tag_match_summary]
    rw [if_neg (by decide : ¬ ("quantity" : String) = "summary")]
  simp only [from_event_step, h1, h2, h3, h4, h5, h6]
  simp only [applyCustom]
  rw [hbad]
  cases MassUnit.fromStr u <;> rfl

/-- A `price` tag whose amount does not parse leaves the fold state
unchanged. -/
lemma from_event_step_bad_price (st : FromEventState) (a cu qa qu : String)
    (rest : List String) (hbad : parseF64 a = none) :
    from_event_step st ("price" :: a :: cu :: qa :: qu :: rest) = st := by
  have hk : tagKind ("price" :: a :: cu :: qa :: qu :: rest) = .custom "price" := by
    with_unfolding_all rfl
  have h1 : nostr_tags_match ("price" :: a :: cu :: qa :: qu :: rest)
      = some ("price", a :: cu :: qa :: qu :: rest) := by
    simp only [nostr_tags_match]
    rw [hk]
    rfl
  have h2 : nostr_tag_match_l ("price" :: a :: cu :: qa :: qu :: rest) = none := by
    simp only [nostr_tag_match_l]
    rw [if_neg (by with_unfolding_all decide : ¬ strLower "price" = "l")]
  have h3 : nostr_tag_match_location ("price" :: a :: cu :: qa :: qu :: rest)
      = none := by
    simp only [nostr_tag_match_location]
    rw [if_neg (by decide : ¬ ("price" : String) = "location")]
  have h4 : nostr_tag_match_geohash ("price" :: a :: cu :: qa :: qu :: rest)
      = none := by
    simp only [nostr_tag_match_geohash]
    rw [if_neg (by decide : ¬ ("price" : String) = "g")]
  have h5 : nostr_tag_match_title ("price" :: a :: cu :: qa :: qu :: rest)
      = none := by
    simp only [nostr_tag_match_title]
    rw [if_neg (by decide : ¬ ("price" : String) = "title")]
  have h6 : nostr_tag_match_summary ("price" :: a :: cu :: qa :: qu :: rest)
      = none := by
    simp only [nostr_tag_match_summary]
    rw [if_neg (by decide : ¬ ("price" : String) = "summary")]
  simp only [from_event_step, h1, h2, h3, h4, h5, h6]
  simp only [applyCustom]
  rw [hbad]
  cases parseF64 qa <;> cases MassUnit.fromStr (strLower qu) <;> rfl

/-- C6: listing reconstruction always succeeds on a readable message, and a
per-tag parse failure drops only that tag's contribution — a `quantity` or
`price` tag with a non-numeric amount can be removed from the message
without changing the reconstruction at all. -/
theorem from_event_total_and_drops_bad_tags :
    (∀ e : NostrEvent, ∃ c, from_event e = .ok c)
    ∧ (∀ (id pk content : String) (k : ℕ) (pre post : List Tag)
        (a u l : String) (rest : List String), parseF64 a = none →
        from_event ⟨id, pk, content, pre ++ ("quantity" :: a :: u :: l :: rest) :: post, k⟩
          = from_event ⟨id, pk, content, pre ++ post, k⟩)
    ∧ (∀ (id pk content : String) (k : ℕ) (pre post : List Tag)
        (a cu qa qu : String) (rest : List String), parseF64 a = none →
        from_event ⟨id, pk, content, pre ++ ("price" :: a :: cu :: qa :: qu :: rest) :: post, k⟩
          = from_event ⟨id, pk, content, pre ++ post, k⟩) := by
  refine ⟨fun e => ⟨_, rfl⟩, ?_, ?_⟩
  · intro id pk content k pre post a u l rest hbad
    simp only [from_event, List.foldl_append, List.foldl_cons,
      from_event_step_bad_quantity _ _ _ _ _ hbad]
  · intro id pk content k pre post a cu qa qu rest hbad
    simp only [from_event, List.foldl_append, List.foldl_cons,
      from_event_step_bad_price _ _ _ _ _ _ hbad]

/-- Witness for C6: a quantity tag with amount `abc` and a price tag with
amount `x1` are dropped; the reconstruction still succeeds. -/
theorem from_event_total_and_drops_bad_tags_witness :
    (∃ c, from_event ⟨"w6", "pub", "", [["quantity", "abc", "kg", "bag"]], 30402⟩
      = .ok c)
    ∧ from_event ⟨"w6", "pub", "", [["title", "t"], ["quantity", "abc", "kg", "bag"]], 30402⟩
        = from_event ⟨"w6", "pub", "", [["title", "t"]], 30402⟩
    ∧ from_event ⟨"w6", "pub", "", [["price", "x1", "usd", "1", "kg"], ["title", "t"]], 30402⟩
        = from_event ⟨"w6", "pub", "", [["title", "t"]], 30402⟩ := by
  refine ⟨from_event_total_and_drops_bad_tags.1 _, ?_, ?_⟩
  · exact from_event_total_and_drops_bad_tags.2.1 "w6" "pub" "" 30402
      [["title", "t"]] [] "abc" "kg" "bag" [] (by with_unfolding_all rfl)
  · exact from_event_total_and_drops_bad_tags.2.2 "w6" "pub" "" 30402
      [] [["title", "t"]] "x1" "usd" "1" "kg" [] (by with_unfolding_all rfl)

/-! ## C5 — geolocation precision policy -/

/-- Processing an `l`-tag with a parsed value reduces to the precision
update of the corresponding axis. -/
lemma from_event_step_l (st : FromEventState) (s kind : String) (v : ℚ)
    (hparse : parseF64 s = some v) :
    from_event_step st ["l", s, kind] = applyL st kind v := by
  have hk : tagKind ["l", s, kind] = .singleLetter 'l' := by
    with_unfolding_all rfl
  have h1 : nostr_tags_match ["l", s, kind] = none := by
    simp only [nostr_tags_match]
    rw [hk]
  have h2 : nostr_tag_match_l ["l", s, kind] = some (kind, v) := by
    simp only [nostr_tag_match_l]
    rw [if_pos (by with_unfolding_all decide : strLower "l" = "l"), hparse]
    rfl
  have h3 : nostr_tag_match_location ["l", s, kind] = none := rfl
  have h4 : nostr_tag_match_geohash ["l", s, kind] = none := by
    simp only [nostr_tag_match_geohash]
    rw [if_neg (by decide : ¬ ("l" : String) = "g")]
  have h5 : nostr_tag_match_title ["l", s, kind] = none := by
    simp only [nostr_tag_match_title]
    rw [if_neg (by decide : ¬ ("l" : String) = "title")]
  have h6 : nostr_tag_match_summary ["l", s, kind] = none := by
    simp only [nostr_tag_match_summary]
    rw [if_neg (by decide : ¬ ("l" : String) = "summary")]
  simp only [from_event_step, h1, h2, h3, h4, h5, h6]

/-- C5: during listing reconstruction, a `dd.lat` (resp. `dd.lon`)
coordinate tag replaces the currently held latitude (resp. longitude) iff
its decimal precision strictly exceeds the held value's precision; with
equal or lower precision the earlier value is kept.  The two concrete
scenarios: lat tags `1.1` then `1.12` end at 1.12, and `1.12` then `1.1`
stays 1.12 (a `0.5` longitude makes the geolocation present). -/
theorem from_event_geolocation_precision :
    (∀ (pre : List Tag) (s : String) (v c : ℚ),
      parseF64 s = some v →
      (List.foldl from_event_step initFromEventState pre).lat = some c →
      (List.foldl from_event_step initFromEventState (pre ++ [["l", s, "dd.lat"]])).lat
        = if decPrecision c < decPrecision v then some v else some c)
    ∧ (∀ (pre : List Tag) (s : String) (v c : ℚ),
      parseF64 s = some v →
      (List.foldl from_event_step initFromEventState pre).lng = some c →
      (List.foldl from_event_step initFromEventState (pre ++ [["l", s, "dd.lon"]])).lng
        = if decPrecision c < decPrecision v then some v else some c)
    ∧ ((from_event ⟨"g1", "pub", "",
        [["l", "1.1", "dd.lat"], ["l", "1.12", "dd.lat"], ["l", "0.5", "dd.lon"]],
        30402⟩).map (fun c => c.geolocation.map (fun g => g.lat))
          = .ok (some (28 / 25 : ℚ)))
    ∧ ((from_event ⟨"g2", "pub", "",
        [["l", "1.12", "dd.lat"], ["l", "1.1", "dd.lat"], ["l", "0.5", "dd.lon"]],
        30402⟩).map (fun c => c.geolocation.map (fun g => g.lat))
          = .ok (some (28 / 25 : ℚ))) := by
  refine ⟨?_, ?_, ?_, ?_⟩
  · intro pre s v c hparse hlat
    rw [List.foldl_append, List.foldl_cons, List.foldl_nil,
      from_event_step_l _ _ _ _ hparse]
    simp only [applyL, if_pos rfl]
    rw [hlat]
    simp only [Option.map_some', Option.getD_some]
    by_cases h : decPrecision c < decPrecision v
    · simp [h]
    · simp [h, hlat]
  · intro pre s v c hparse hlng
    rw [List.foldl_append, List.foldl_cons, List.foldl_nil,
      from_event_step_l _ _ _ _ hparse]
    simp only [applyL]
    rw [if_neg (by decide : ¬ ("dd.lon" : String) = "dd.lat")]
    rw [hlng]
    simp only [Option.map_some', Option.getD_some, if_pos rfl]
    by_cases h : decPrecision c < decPrecision v
    · simp [h]
    · simp [h, hlng]
  · with_unfolding_all decide
  · with_unfolding_all decide

/-- Witness for C5: `1.1` (precision 1) then `1.12` (precision 2) via the
general statement, on each axis. -/
theorem from_event_geolocation_precision_witness :
    (List.foldl from_event_step initFromEventState
        [["l", "1.1", "dd.lat"], ["l", "1.12", "dd.lat"]]).lat = some (28 / 25 : ℚ)
    ∧ (List.foldl from_event_step initFromEventState
        [["l", "0.5", "dd.lon"], ["l", "1.1", "dd.lon"]]).lng = some (1 / 2 : ℚ) := by
  constructor
  · have h := from_event_geolocation_precision.1 [["l", "1.1", "dd.lat"]] "1.12"
      (28 / 25) (11 / 10) (by with_unfolding_all decide) (by with_unfolding_all decide)
    rw [show ([["l", "1.1", "dd.lat"]] ++ [["l", "1.12", "dd.lat"]])
        = [["l", "1.1", "dd.lat"], ["l", "1.12", "dd.lat"]] from rfl] at h
    rw [h]
    with_unfolding_all decide
  · have h := from_event_geolocation_precision.2.1 [["l", "0.5", "dd.lon"]] "1.1"
      (11 / 10) (1 / 2) (by with_unfolding_all decide) (by with_unfolding_all decide)
    rw [show ([["l", "0.5", "dd.lon"]] ++ [["l", "1.1", "dd.lon"]])
        = [["l", "0.5", "dd.lon"], ["l", "1.1", "dd.lon"]] from rfl] at h
    rw [h]
    with_unfolding_all decide

/-! ## C10 — bid_msat reflects only the last bid tag -/

/-- A `bid`-kinded tag always overwrites `bid_msat` with its (possibly
failed) parse. -/
lemma parse_tags_step_bid (st : JobParseState) (t : Tag)
    (hk : tagKind t = .custom "bid") :
    parse_tags_step st t = .ok { st with bid_msat := (tagContent t).bind parseU64 } := by
  unfold parse_tags_step
  rw [hk]
  simp only [nostr_tag_first_value, hk]
  rfl

/-- Any step on a tag that is not `bid`-kinded leaves `bid_msat` alone. -/
lemma parse_tags_step_preserves_bid (st st' : JobParseState) (t : Tag)
    (hk : tagKind t ≠ .custom "bid")
    (h : parse_tags_step st t = .ok st') : st'.bid_msat = st.bid_msat := by
  unfold parse_tags_step at h
  cases htk : tagKind t with
  | singleLetter c =>
    rw [htk] at h
    dsimp only at h
    by_cases hi : c = 'i'
    · rw [if_pos hi] at h
      cases hsl : nostr_tag_slice t 1 with
      | none => rw [hsl] at h; try dsimp only at h; cases h; rfl
      | some vals =>
        rw [hsl] at h; try dsimp only at h
        match vals with
        | [] => cases h; rfl
        | [_] => cases h; rfl
        | [_, _] => cases h; rfl
        | [_, _, _] => cases h; rfl
        | d :: ity :: rel :: mk :: rest =>
          dsimp only at h
          cases hty : JobRequestInputType.tryFrom ity with
          | error e => rw [hty] at h; try dsimp only at h; cases h
          | ok tyv =>
            rw [hty] at h; try dsimp only at h
            cases hmk : JobRequestInputMarker.tryFrom mk with
            | error e => rw [hmk] at h; try dsimp only at h; cases h
            | ok mkv => rw [hmk] at h; try dsimp only at h; cases h; rfl
    · rw [if_neg hi] at h
      by_cases ht : c = 't'
      · rw [if_pos ht] at h
        cases hv : nostr_tag_first_value t "t" with
        | none => rw [hv] at h; try dsimp only at h; cases h; rfl
        | some val => rw [hv] at h; try dsimp only at h; cases h; rfl
      · rw [if_neg ht] at h
        by_cases hp : c = 'p'
        · rw [if_pos hp] at h
          cases hv : nostr_tag_at_value t 1 with
          | none => rw [hv] at h; try dsimp only at h; cases h; rfl
          | some pk => rw [hv] at h; try dsimp only at h; cases h; rfl
        · rw [if_neg hp] at h; cases h; rfl
  | relays =>
    rw [htk] at h
    dsimp only at h
    cases hv : nostr_tag_relays_parse t with
    | none => rw [hv] at h; try dsimp only at h; cases h; rfl
    | some urls => rw [hv] at h; try dsimp only at h; cases h; rfl
  | encrypted => rw [htk] at h; dsimp only at h; cases h; rfl
  | title => rw [htk] at h; dsimp only at h; cases h; rfl
  | summary => rw [htk] at h; dsimp only at h; cases h; rfl
  | custom k =>
    have hkb : k ≠ "bid" := fun hc => hk (by rw [htk, hc])
    rw [htk] at h
    dsimp only at h
    by_cases ho : k = "output"
    · rw [if_pos ho] at h; cases h; rfl
    · rw [if_neg ho, if_neg hkb] at h
      by_cases hpar : k = "param"
      · rw [if_pos hpar] at h
        cases hsl : nostr_tag_slice t 1 with
        | none => rw [hsl] at h; try dsimp only at h; cases h; rfl
        | some vals =>
          rw [hsl] at h; try dsimp only at h
          match vals with
          | [] => cases h; rfl
          | [_] => cases h; rfl
          | _ :: _ :: _ => cases h; rfl
      · rw [if_neg hpar] at h; cases h; rfl

/-- Folding over tags none of which is `bid`-kinded preserves `bid_msat`. -/
lemma parse_tags_foldlM_preserves_bid :
    ∀ (ts : List Tag) (st st' : JobParseState),
    (∀ t ∈ ts, tagKind t ≠ .custom "bid") →
    List.foldlM parse_tags_step st ts = .ok st' →
    st'.bid_msat = st.bid_msat := by
  intro ts
  induction ts with
  | nil =>
    intro st st' _ h
    cases h
    rfl
  | cons t ts ih =>
    intro st st' hnb h
    rw [List.foldlM_cons] at h
    cases hstep : parse_tags_step st t with
    | error e => rw [hstep] at h; cases h
    | ok st1 =>
      rw [hstep] at h
      replace h : List.foldlM parse_tags_step st1 ts = .ok st' := h
      rw [ih st1 st' (fun u hu => hnb u (List.mem_cons_of_mem t hu)) h]
      exact parse_tags_step_preserves_bid st st1 t (hnb t (List.mem_cons_self t ts)) hstep

/-- C10: after parsing, `bid_msat` reflects only the last `bid` tag: a
valid earlier bid value is discarded when the last `bid` tag of the
message has a missing or unparseable value, leaving `bid_msat` unset. -/
theorem parse_event_bid_last_tag_wins (parsePk : String → Option String)
    (decrypt : String → String → String → Except String String)
    (parseTags : String → Except String (List Tag))
    (event : NostrEvent) (keys : Keys)
    (pre mid post : List Tag) (bv : String) (n : ℕ) (bad : Tag) (jr : JobRequest)
    (hgood : parseU64 bv = some n)
    (hbadkind : tagKind bad = .custom "bid")
    (hbadval : (tagContent bad).bind parseU64 = none)
    (hpost : ∀ t ∈ post, tagKind t ≠ .custom "bid")
    (hresolve : nostr_tags_resolve parsePk decrypt parseTags event keys
        = .ok (pre ++ ["bid", bv] :: (mid ++ bad :: post)))
    (hparse : parse_event parsePk decrypt parseTags event keys = .ok jr) :
    jr.bid_msat = none := by
  unfold parse_event at hparse
  rw [hresolve] at hparse
  dsimp only at hparse
  cases hfold : List.foldlM parse_tags_step initJobParseState
      (pre ++ ["bid", bv] :: (mid ++ bad :: post)) with
  | error e => rw [hfold] at hparse; cases hparse
  | ok st =>
    rw [hfold] at hparse
    cases hparse
    show st.bid_msat = none
    rw [List.foldlM_append] at hfold
    cases hpre : List.foldlM parse_tags_step initJobParseState pre with
    | error e => rw [hpre] at hfold; cases hfold
    | ok st0 =>
      rw [hpre] at hfold
      replace hfold : List.foldlM parse_tags_step st0
          (["bid", bv] :: (mid ++ bad :: post)) = .ok st := hfold
      rw [List.foldlM_cons,
        parse_tags_step_bid st0 ["bid", bv] (by with_unfolding_all rfl)] at hfold
      replace hfold : List.foldlM parse_tags_step
          { st0 with bid_msat := (tagContent ["bid", bv]).bind parseU64 }
          (mid ++ bad :: post) = .ok st := hfold
      rw [List.foldlM_append] at hfold
      cases hmid : List.foldlM parse_tags_step
          { st0 with bid_msat := (tagContent ["bid", bv]).bind parseU64 } mid with
      | error e => rw [hmid] at hfold; cases hfold
      | ok st1 =>
        rw [hmid] at hfold
        replace hfold : List.foldlM parse_tags_step st1 (bad :: post) = .ok st := hfold
        rw [List.foldlM_cons, parse_tags_step_bid st1 bad hbadkind] at hfold
        replace hfold : List.foldlM parse_tags_step
            { st1 with bid_msat := (tagContent bad).bind parseU64 } post
            = .ok st := hfold
        rw [parse_tags_foldlM_preserves_bid post _ st hpost hfold]
        simp [hbadval]

/-- The C10 message: a valid bid of 100 followed by an unparseable bid. -/
def eventC10 : NostrEvent :=
  { id := "e10", pubkey := "sender", content := "",
    tags := [["bid", "100"], ["bid", "xyz"]], kind := 5300 }

/-- The parse of `eventC10`: everything empty except the raw tags, and
`bid_msat` unset. -/
def jobRequestC10 : JobRequest :=
  { id := "e10", inputs := [], output := none, bid_msat := none, relays := [],
    service_providers := [], params := [], hashtags := [],
    tags := [["bid", "100"], ["bid", "xyz"]] }

/-- Witness for C10: bid 100 then bid `xyz` leaves `bid_msat` unset. -/
theorem parse_event_bid_last_tag_wins_witness :
    parse_event some decryptFail parseTagsFail eventC10 keysBob = .ok jobRequestC10
    ∧ jobRequestC10.bid_msat = none := by
  have hp : parse_event some decryptFail parseTagsFail eventC10 keysBob
      = .ok jobRequestC10 := by with_unfolding_all rfl
  refine ⟨hp, ?_⟩
  exact parse_event_bid_last_tag_wins some decryptFail parseTagsFail eventC10
    keysBob [] [] [] "100" 100 ["bid", "xyz"] jobRequestC10
    (by with_unfolding_all rfl) (by with_unfolding_all rfl)
    (by with_unfolding_all rfl) (by intro t ht; cases ht)
    (by with_unfolding_all rfl) hp

/-! ## C2 — an unsupported marker string aborts the whole message

The claim as stated is false on the code: `parse_event` converts the
marker through `TryFrom` and propagates the failure with `?`, so one input
with an unsupported marker string aborts parsing of the whole message and
no input — including siblings with valid markers — is dispatched.
Per-input isolation exists only for handler-level failures of inputs whose
markers parse (`process_job_request` catches those). -/

/-- The C2 message: a first input with valid marker `order`, a second with
the unsupported marker `bogus`. -/
def eventC2 : NostrEvent :=
  { id := "e2c", pubkey := "sender", content := "",
    tags := [["i", "d1", "text", "r1", "order"], ["i", "d2", "text", "r2", "bogus"]],
    kind := 5300 }

/-- Counterexample to C2: on `eventC2` the sibling `order` input is not
dispatched — parsing fails with `InvalidInputMarker "bogus"` and the
dispatch trace is empty. -/
theorem handle_event_sibling_not_dispatched :
    parse_event some decryptFail parseTagsFail eventC2 keysBob
        = .error (.InvalidInputMarker "bogus")
    ∧ handle_event some decryptFail parseTagsFail eventC2 keysBob
        = ([], some (.InvalidInputMarker "bogus")) := by
  constructor
  · with_unfolding_all rfl
  · with_unfolding_all rfl

/-- C2 (amended): an `i` input whose marker string fails the marker
conversion makes `parse_event` fail with `InvalidInputMarker` for the
whole message, and `handle_event` then dispatches no input at all —
sibling inputs included. -/
theorem handle_event_bad_marker_aborts_message (parsePk : String → Option String)
    (decrypt : String → String → String → Except String String)
    (parseTags : String → Except String (List Tag))
    (event : NostrEvent) (keys : Keys)
    (pre post : List Tag) (d ity rel mk : String) (rest : List String)
    (st0 : JobParseState) (ty : JobRequestInputType)
    (hresolve : nostr_tags_resolve parsePk decrypt parseTags event keys
        = .ok (pre ++ ("i" :: d :: ity :: rel :: mk :: rest) :: post))
    (hpre : List.foldlM parse_tags_step initJobParseState pre = .ok st0)
    (hty : JobRequestInputType.tryFrom ity = .ok ty)
    (hmk : JobRequestInputMarker.tryFrom mk = .error (.InvalidInputMarker mk)) :
    parse_event parsePk decrypt parseTags event keys
        = .error (.InvalidInputMarker mk)
    ∧ handle_event parsePk decrypt parseTags event keys
        = ([], some (.InvalidInputMarker mk)) := by
  have hstep : parse_tags_step st0 ("i" :: d :: ity :: rel :: mk :: rest)
      = .error (.InvalidInputMarker mk) := by
    have hk : tagKind ("i" :: d :: ity :: rel :: mk :: rest) = .singleLetter 'i' := by
      with_unfolding_all rfl
    have hsl : nostr_tag_slice ("i" :: d :: ity :: rel :: mk :: rest) 1
        = some (d :: ity :: rel :: mk :: rest) := by
      simp [nostr_tag_slice]
    unfold parse_tags_step
    rw [hk]
    dsimp only
    rw [if_pos rfl, hsl]
    dsimp only
    rw [hty]
    dsimp only
    rw [hmk]
  have hfold : List.foldlM parse_tags_step initJobParseState
      (pre ++ ("i" :: d :: ity :: rel :: mk :: rest) :: post)
      = .error (.InvalidInputMarker mk) := by
    rw [List.foldlM_append, hpre]
    show List.foldlM parse_tags_step st0 (("i" :: d :: ity :: rel :: mk :: rest) :: post)
      = .error (.InvalidInputMarker mk)
    rw [List.foldlM_cons, hstep]
    rfl
  have hparse : parse_event parsePk decrypt parseTags event keys
      = .error (.InvalidInputMarker mk) := by
    unfold parse_event
    rw [hresolve]
    dsimp only
    rw [hfold]
  refine ⟨hparse, ?_⟩
  unfold handle_event
  rw [hparse]

/-- The witness message for the amended C2: a hashtag, a valid `quote`
input, then an input with the unsupported marker `banana`. -/
def eventC2W : NostrEvent :=
  { id := "e2w", pubkey := "sender", content := "",
    tags := [["t", "topic"], ["i", "d1", "url", "r1", "quote"],
             ["i", "d2", "text", "r2", "banana"]],
    kind := 5300 }

/-- Witness for the amended C2, at `eventC2W`. -/
theorem handle_event_bad_marker_aborts_message_witness :
    parse_event some decryptFail parseTagsFail eventC2W keysBob
        = .error (.InvalidInputMarker "banana")
    ∧ handle_event some decryptFail parseTagsFail eventC2W keysBob
        = ([], some (.InvalidInputMarker "banana")) :=
  handle_event_bad_marker_aborts_message some decryptFail parseTagsFail eventC2W
    keysBob [["t", "topic"], ["i", "d1", "url", "r1", "quote"]] []
    "d2" "text" "r2" "banana" []
    { inputs := [{ data := "d1", input_type := .Url, relay := some "r1",
                   marker := some .Quote }],
      output := none, bid_msat := none, relays := [], providers := [],
      params := [], hashtags := [] }
    .Text
    (by with_unfolding_all rfl) (by with_unfolding_all rfl)
    (by with_unfolding_all rfl) (by with_unfolding_all rfl)

end Rhi
